import Mathlib

/-!
Shallow embedding of the typed state-machine core of `automat._typical`
(`src/automat/_typical.py`): the per-state object lifecycle and
automatic-argument-resolution engine.

Python objects are modelled as follows:

* a runtime value is a `Value` (with `Value.pynone` standing for Python's
  `None`, `Value.core` for the shared state core, `Value.self` for the
  synthetic facade instance, and `Value.objRef` for a reference to a built
  state-data object, identified by its state name and an allocation number);
* a built state-data object is an `Obj`: the `__name__` of the state class it
  was built from, an allocation number `birth` that models object identity
  (each call of a state factory yields a fresh number), and the keyword
  arguments the factory was invoked with;
* a Python type annotation is a `Ty`: an identity `tid` (Python `==` on
  classes is identity) together with its `__name__` string;
* `inspect.Parameter` is `Param` (name, annotation, whether a default exists);
* the state cluster `self._stateCluster` (a Python dict) is a function
  `String → Option Obj`; the attribute surface of the state core is a
  function `String → Value` (`getattr(core, name, None)` semantics, so an
  absent attribute and an attribute holding `None` both map to
  `Value.pynone`, exactly what the source code can observe).

`automat._core` (`Automaton` / `Transitioner`) is not part of the sources
under review; the places that depend on it are modelled from the spec and
say so in their doc comments.
-/

/-- Identity-carrying model of a Python class/type annotation: `tid` models
object identity (`is` / `==` on classes), `name` models `__name__`. -/
structure Ty : Type where
  tid : Nat
  name : String
deriving DecidableEq

/-- Runtime value universe for the embedding. -/
inductive Value : Type where
  | pynone : Value
  | prim : Nat → Value
  | objRef : String → Nat → Value
  | core : Value
  | self : Value
deriving DecidableEq

/-- A built state-data object: state-class name, allocation identity, and the
keyword arguments its factory received. -/
structure Obj : Type where
  stateName : String
  birth : Nat
  fields : List (String × Value)
deriving DecidableEq

/-- One constructor/method parameter: name, annotation, and whether the
parameter has a default value. -/
structure Param : Type where
  name : String
  ty : Ty
  hasDefault : Bool
deriving DecidableEq

/-- Errors raised while building a state object (`KeyError`,
`CouldNotFindAutoParam`, `TypeError` from `Signature.bind`). -/
inductive DispatchError : Type where
  | keyError : String → DispatchError
  | couldNotFindAutoParam : String → DispatchError
  | bindError : String → DispatchError
deriving DecidableEq

/-- Message text of a `DispatchError`, mirroring the Python messages. -/
def dispatchErrorMessage : DispatchError → String
  | .keyError k => k
  | .couldNotFindAutoParam n => "Could not find parameter " ++ n ++ " anywhere."
  | .bindError s => s

instance {ε α : Type} [DecidableEq ε] [DecidableEq α] : DecidableEq (Except ε α) := fun x y =>
  match x, y with
  | .ok a, .ok b =>
    if h : a = b then isTrue (by rw [h]) else isFalse (by intro hc; cases hc; exact h rfl)
  | .error a, .error b =>
    if h : a = b then isTrue (by rw [h]) else isFalse (by intro hc; cases hc; exact h rfl)
  | .ok _, .error _ => isFalse (by intro hc; cases hc)
  | .error _, .ok _ => isFalse (by intro hc; cases hc)

/-- Association-list lookup (first match), modelling Python dict lookup for
the finite tables of the embedding. -/
def alookup {κ α : Type} [DecidableEq κ] (k : κ) : List (κ × α) → Option α
  | [] => none
  | (k', v) :: rest => if k' = k then some v else alookup k rest

/-- Keyword binding of `Signature.bind` once positional arguments ran out:
remaining parameters are taken from the keyword arguments; a parameter that
is not supplied and has a default is simply absent from the bound arguments,
and a missing required parameter is a `TypeError`. -/
def bindKw : List Param → List (String × Value) → Except DispatchError (List (String × Value))
  | [], kwargs =>
    if kwargs.isEmpty then .ok []
    else .error (.bindError "got an unexpected keyword argument")
  | p :: ps, kwargs =>
    match alookup p.name kwargs with
    | some v =>
      match bindKw ps (kwargs.eraseP (fun kv => kv.1 == p.name)) with
      | .ok rest => .ok ((p.name, v) :: rest)
      | .error e => .error e
    | none =>
      if p.hasDefault then bindKw ps kwargs
      else .error (.bindError ("missing a required argument: " ++ p.name))

/-- Model of `Signature.bind(...).arguments`: positional values are assigned
to parameters in order, then keyword arguments bind the remaining ones. -/
def bindArgs : List Param → List Value → List (String × Value) → Except DispatchError (List (String × Value))
  | params, [], kwargs => bindKw params kwargs
  | [], _ :: _, _ => .error (.bindError "too many positional arguments")
  | p :: ps, v :: vs, kwargs =>
    if (alookup p.name kwargs).isSome then
      .error (.bindError ("multiple values for argument " ++ p.name))
    else
      match bindArgs ps vs kwargs with
      | .ok rest => .ok ((p.name, v) :: rest)
      | .error e => .error e

/-- Rule 1 test of `_magicValueForParameter` (lines 116-122 of
`_typical.py`): the transition signature has a parameter of the same name
whose annotation equals (`==`, i.e. identity on types) the target
parameter's annotation. -/
def rule1Matches (parameterName : String) (parameterType : Ty)
    (transitionSignature : Option (List Param)) : Bool :=
  match transitionSignature with
  | none => false
  | some sig =>
    match sig.find? (fun p => p.name == parameterName) with
    | none => false
    | some transitionParam => transitionParam.ty == parameterType

/-- Embedding of `_magicValueForParameter` (`_typical.py` lines 84-136): the
five resolution sources tried in order; note that the state-core rule tests
only the parameter name and that `getattr(stateCore, name, None) is not
None` makes a `None`-valued attribute fall through to the later rules. -/
def _magicValueForParameter (parameterName : String) (parameterType : Ty)
    (transitionSignature : Option (List Param))
    (passedParams : List (String × Value))
    (stateCoreAttrs : String → Value)
    (stateCoreTy : Ty)
    (existingStateCluster : String → Option Obj)
    (inputProtocols : List Ty) : Except DispatchError Value :=
  if rule1Matches parameterName parameterType transitionSignature then
    match alookup parameterName passedParams with
    | some v => .ok v
    | none => .error (.keyError parameterName)
  else
    match stateCoreAttrs parameterName with
    | .pynone =>
      match existingStateCluster parameterType.name with
      | some stateObject => .ok (.objRef stateObject.stateName stateObject.birth)
      | none =>
        if parameterType = stateCoreTy then .ok .core
        else if parameterType ∈ inputProtocols then .ok .self
        else .error (.couldNotFindAutoParam parameterName)
    | v => .ok v

/-- The parameter loop of `_buildNewState` (lines 309-322): every factory
parameter without a default is resolved through `_magicValueForParameter`;
parameters with a default are skipped. -/
def resolveParams (factoryParams : List Param)
    (transitionSignature : Option (List Param))
    (passedParams : List (String × Value))
    (stateCoreAttrs : String → Value) (stateCoreTy : Ty)
    (existingStateCluster : String → Option Obj)
    (inputProtocols : List Ty) : Except DispatchError (List (String × Value)) :=
  match factoryParams with
  | [] => .ok []
  | p :: rest =>
    if p.hasDefault then
      resolveParams rest transitionSignature passedParams stateCoreAttrs
        stateCoreTy existingStateCluster inputProtocols
    else
      match _magicValueForParameter p.name p.ty transitionSignature passedParams
          stateCoreAttrs stateCoreTy existingStateCluster inputProtocols with
      | .error e => .error e
      | .ok v =>
        match resolveParams rest transitionSignature passedParams stateCoreAttrs
            stateCoreTy existingStateCluster inputProtocols with
        | .error e => .error e
        | .ok kvs => .ok ((p.name, v) :: kvs)

/-- Embedding of `_buildNewState` (lines 284-323): bind the triggering call's
arguments against the transition method's signature (the state core is bound
as the leading `self` argument), resolve every defaultless factory parameter
and invoke the state factory, producing a fresh object. `none` for the
transition method corresponds to the initial-state build, where
`transitionSignature` is `None` and `passedParams` is empty. -/
def _buildNewState (stateName : String) (transitionMethod : Option (List Param))
    (factoryParams : List Param)
    (args : List Value) (kwargs : List (String × Value))
    (stateCoreAttrs : String → Value) (stateCoreTy : Ty)
    (existingStateCluster : String → Option Obj)
    (inputProtocols : List Ty) (birth : Nat) : Except DispatchError Obj :=
  match (match transitionMethod with
         | none => Except.ok []
         | some sig => bindArgs sig (Value.core :: args) kwargs) with
  | .error e => .error e
  | .ok passedParams =>
    match resolveParams factoryParams transitionMethod passedParams
        stateCoreAttrs stateCoreTy existingStateCluster inputProtocols with
    | .error e => .error e
    | .ok kvs => .ok { stateName := stateName, birth := birth, fields := kvs }

/-- The registered data of one state factory: the constructor parameters of
the state class (the `_liveSignature(stateFactory)` parameters) and its
`__persistState__` flag. -/
structure FactorySpec : Type where
  params : List Param
  persistState : Bool
deriving DecidableEq

/-- Static data of a built machine class (`_TypicalClass`): the
`_stateFactories` dict keyed by state-class `__name__`, the transition table
rows `(state, input) ↦ (newState, outputMethodName)` registered through
`addTransition`, the designated error state, the initial state
(`_stateClasses[0]`), the signatures of the input-protocol methods, the
state-core type and the declared input protocols. -/
structure Machine : Type where
  stateFactories : List (String × FactorySpec)
  transitions : List ((String × String) × (String × String))
  errorState : String
  initialState : String
  inputSigs : List (String × List Param)
  stateCoreTy : Ty
  inputProtocols : List Ty
deriving DecidableEq

/-- Mutable data of one machine instance (`_TypicalInstance`): the attribute
surface of the state core, the transitioner cursor (`_transitioner._state`),
the state cluster (`_stateCluster`), and the allocation counter that models
object identity of factory calls. -/
structure Inst : Type where
  coreAttrs : String → Value
  cursor : String
  cluster : String → Option Obj
  nextBirth : Nat

/-- Embedding of `_updateState` (`_typical.py` lines 326-356): look up the
factory for the (already advanced) current state, reuse the cluster entry or
build a new state object, and afterwards delete the old state's entry when
the machine moved away from a non-persistent state. A Python exception is an
`Except.error`; mutations performed before the raise are kept in the
returned instance, mirroring in-place mutation of the Python object. -/
def _updateState (m : Machine) (inst : Inst) (oldState : Option String)
    (args : List Value) (kwargs : List (String × Value))
    (inputMethod : Option (List Param)) : Inst × Except DispatchError Obj :=
  match alookup inst.cursor m.stateFactories with
  | none => (inst, .error (.keyError inst.cursor))
  | some stateFactory =>
    match (match inst.cluster inst.cursor with
           | some stateObject => (inst, Except.ok stateObject)
           | none =>
             match _buildNewState inst.cursor inputMethod stateFactory.params args kwargs
                 inst.coreAttrs m.stateCoreTy inst.cluster m.inputProtocols inst.nextBirth with
             | .error e => (inst, Except.error e)
             | .ok stateObject =>
               ({ inst with
                    cluster := fun s => if s = inst.cursor then some stateObject else inst.cluster s,
                    nextBirth := inst.nextBirth + 1 },
                Except.ok stateObject)) with
    | (inst1, .error e) => (inst1, .error e)
    | (inst1, .ok stateObject) =>
      match oldState with
      | none => (inst1, .ok stateObject)
      | some old =>
        match alookup old m.stateFactories with
        | none => (inst1, .error (.keyError old))
        | some oldStateFactory =>
          if old = inst.cursor then (inst1, .ok stateObject)
          else if oldStateFactory.persistState then (inst1, .ok stateObject)
          else
            match inst1.cluster old with
            | none => (inst1, .error (.keyError old))
            | some _ =>
              ({ inst1 with cluster := fun s => if s = old then none else inst1.cluster s },
               .ok stateObject)

/-- Failure surfaced to the caller of an input method: either the
`RuntimeError("unhandled: state:... input:...")` raised by the generated
method, or an exception propagated from state construction. -/
inductive DispatchFailure : Type where
  | unhandled : String → String → DispatchFailure
  | internal : DispatchError → DispatchFailure
deriving DecidableEq

/-- Message text of a `DispatchFailure`, mirroring the Python messages. -/
def failureMessage : DispatchFailure → String
  | .unhandled s i => "unhandled: state:" ++ s ++ " input:" ++ i
  | .internal e => dispatchErrorMessage e

/-- The result of invoking the resolved output method: which object received
the call, which method was called, and the forwarded arguments. The
dispatcher returns this record unchanged, modelling
`return realMethod(*a, **kw)`. -/
structure Invocation : Type where
  receiver : Obj
  methodName : String
  args : List Value
  kwargs : List (String × Value)
deriving DecidableEq

/-- Embedding of the generated input method of `_bindableInputMethod`
(`_typical.py` lines 362-384): fetch the old state's object from the
cluster, let the transitioner advance the cursor and report the output
method, run `_updateState`, raise on an unhandled input, and finally invoke
the output method on the object fetched at the start.

The `Transitioner`/`Automaton` lookup is not under `src/`; modelled from the
spec: a registered `(state, input)` row yields its `(nextState, [output])`,
and anything else takes the catch-all registered by `buildClass` as
`unhandledTransition(errorState.__name__, [None])`, i.e. the cursor moves to
the designated error state and the reported output is `None` (spec sections
6 and 7). -/
def dispatch (m : Machine) (inst : Inst) (inputMethodName : String)
    (args : List Value) (kwargs : List (String × Value)) :
    Inst × Except DispatchFailure Invocation :=
  match alookup inputMethodName m.inputSigs with
  | none => (inst, .error (.internal (.keyError inputMethodName)))
  | some inputMethod =>
    match inst.cluster inst.cursor with
    | none => (inst, .error (.internal (.keyError inst.cursor)))
    | some stateObject =>
      let stepRow := alookup (inst.cursor, inputMethodName) m.transitions
      let nextState := match stepRow with | some (n, _) => n | none => m.errorState
      let outputMethodName : Option String := stepRow.map (fun r => r.2)
      match _updateState m { inst with cursor := nextState } (some inst.cursor) args kwargs
          (some inputMethod) with
      | (inst2, .error e) => (inst2, .error (.internal e))
      | (inst2, .ok _) =>
        match outputMethodName with
        | none => (inst2, .error (.unhandled inst.cursor inputMethodName))
        | some outName =>
          (inst2, .ok { receiver := stateObject, methodName := outName, args := args, kwargs := kwargs })

/-- Embedding of `_TypicalClass.__call__` (lines 447-459): a fresh instance
starts at the initial state with an empty cluster, and `_updateState` is run
once with no old state and no transition method to build the initial state's
object. -/
def mkInstance (m : Machine) (coreAttrs : String → Value) : Inst × Except DispatchError Obj :=
  _updateState m
    { coreAttrs := coreAttrs, cursor := m.initialState, cluster := fun _ => none, nextBirth := 0 }
    none [] [] none

/-- Input protocol type of the running example machine. -/
def tyProto : Ty := ⟨1, "ExampleInputs"⟩

/-- State-core type of the running example machine. -/
def tyCore : Ty := ⟨0, "ExampleCore"⟩

/-- Concrete machine mirroring the spec's Idle/Active scenario: `Idle`
(persistent) handles `start` with output `doStart` and enters `Active`;
`Active` (non-persistent) handles `stop` with output `doStop` and enters
`Idle`; the default `ErrorState` is the designated error state. -/
def exm : Machine :=
  { stateFactories :=
      [("Idle", ⟨[], true⟩), ("Active", ⟨[], false⟩), ("ErrorState", ⟨[], false⟩)]
  , transitions :=
      [(("Idle", "start"), ("Active", "doStart")), (("Active", "stop"), ("Idle", "doStop"))]
  , errorState := "ErrorState"
  , initialState := "Idle"
  , inputSigs := [("start", [⟨"self", tyProto, false⟩]), ("stop", [⟨"self", tyProto, false⟩])]
  , stateCoreTy := tyCore
  , inputProtocols := [tyProto] }

/-- Core-attribute surface of the running example: no attributes set. -/
def exAttrs : String → Value := fun _ => Value.pynone

/-- Example instance as constructed (`Idle` built, cursor at `Idle`). -/
def exI0 : Inst := (mkInstance exm exAttrs).1

/-- Example instance after `start()` (`Active` built, `Idle` retained). -/
def exI1 : Inst := (dispatch exm exI0 "start" [] []).1

/-- Example instance after `start()` then `stop()` (`Active` evicted). -/
def exI2 : Inst := (dispatch exm exI1 "stop" [] []).1

/-- Example instance after `start()`, `stop()`, `start()` (fresh `Active`). -/
def exI3 : Inst := (dispatch exm exI2 "start" [] []).1

/-- One declared state class as seen by `TypicalBuilder.buildClass`: its
`__name__`, its `__persistState__` flag, its constructor parameters, and the
`(outputMethodName, inputMethodName, newStateName)` triples extracted by
`_stateInputs`. -/
structure StateClassDecl : Type where
  name : String
  persistState : Bool
  params : List Param
  handlers : List (String × String × String)
deriving DecidableEq

/-- Modelled from the spec: `Automaton.addTransition` of `automat._core`,
which is not under `src/` (only its caller `buildClass` is). Registers one
`(state, input) ↦ (newState, output)` row at build time and rejects a second
registration for an already-bound `(state, input)` pair with a configuration
error, per the spec's build-time contract and tie-break policy (sections 4.1
and 6). -/
def addTransition (table : List ((String × String) × (String × String)))
    (fromState inputName toState outputName : String) :
    Except String (List ((String × String) × (String × String))) :=
  if (alookup (fromState, inputName) table).isSome then
    .error ("already have transition from " ++ fromState ++ " via " ++ inputName)
  else
    .ok (table ++ [((fromState, inputName), (toState, outputName))])

/-- Registration events contributed by one state class under one protocol's
set of possible inputs: the `_stateInputs` triples whose input name is a
recognized input, in declaration order, as
`(stateName, inputName, newStateName, outputMethodName)`. -/
def eventsForState (possibleInputs : List String) (stateClass : StateClassDecl) :
    List (String × String × String × String) :=
  stateClass.handlers.filterMap (fun h =>
    if h.2.1 ∈ possibleInputs then some (stateClass.name, h.2.1, h.2.2, h.1) else none)

/-- Registration events of one protocol across all state classes, in the
iteration order of `buildClass`. -/
def eventsForProtocol (possibleInputs : List String) :
    List StateClassDecl → List (String × String × String × String)
  | [] => []
  | stateClass :: rest =>
    eventsForState possibleInputs stateClass ++ eventsForProtocol possibleInputs rest

/-- All `addTransition` calls performed by `buildClass`, in order: the outer
loop runs over the public protocol followed by the private protocols, the
inner loops over the state classes (error state last) and their handlers. -/
def registrationEvents : List (List String) → List StateClassDecl →
    List (String × String × String × String)
  | [], _ => []
  | possibleInputs :: rest, allStates =>
    eventsForProtocol possibleInputs allStates ++ registrationEvents rest allStates

/-- Folding `addTransition` over the registration events, starting from a
given table; the first duplicate `(state, input)` binding aborts the build
with its configuration error. -/
def registerAll (table : List ((String × String) × (String × String))) :
    List (String × String × String × String) →
    Except String (List ((String × String) × (String × String)))
  | [] => .ok table
  | (fromState, inputName, toState, outputName) :: rest =>
    match addTransition table fromState inputName toState outputName with
    | .error msg => .error msg
    | .ok table2 => registerAll table2 rest

/-- Embedding of `TypicalBuilder.buildClass` (`_typical.py` lines 603-662)
restricted to what the claims need: register every recognized
`(state, output-method)` binding through `addTransition` (error state
included, public protocol first, then private protocols), key the
state-factory dict by state-class `__name__` (a later class with the same
name overwrites an earlier one, as repeated dict assignment does), and
produce the machine with `_stateClasses[0]` as initial state and the
declared error state as the catch-all target. -/
def buildClass (publicInputs : List String) (privateInputs : List (List String))
    (stateClasses : List StateClassDecl) (errorStateClass : StateClassDecl)
    (stateCoreTy : Ty) (inputProtocols : List Ty)
    (inputSigs : List (String × List Param)) : Except String Machine :=
  match registerAll []
      (registrationEvents (publicInputs :: privateInputs) (stateClasses ++ [errorStateClass])) with
  | .error msg => .error msg
  | .ok table =>
    match stateClasses with
    | [] => .error "list index out of range"
    | firstState :: _ =>
      .ok { stateFactories :=
              (stateClasses ++ [errorStateClass]).reverse.map
                (fun sc => (sc.name, ⟨sc.params, sc.persistState⟩))
          , transitions := table
          , errorState := errorStateClass.name
          , initialState := firstState.name
          , inputSigs := inputSigs
          , stateCoreTy := stateCoreTy
          , inputProtocols := inputProtocols }

/-- Persistence flag of a state name per the factory table. -/
def persistOf (m : Machine) (s : String) : Bool :=
  match alookup s m.stateFactories with
  | some fac => fac.persistState
  | none => false

/-- Well-formedness of a machine's static tables: every transition target
has a registered factory, and so does the designated error state. -/
def WFMachine (m : Machine) : Prop :=
  (∀ row ∈ m.transitions, (alookup row.2.1 m.stateFactories).isSome = true) ∧
  (alookup m.errorState m.stateFactories).isSome = true

/-- The invariant on one machine instance between dispatches: the cursor's
state has a factory, the cluster holds an entry for the current state, and
every non-current entry belongs to a persistent state. -/
def goodInst (m : Machine) (inst : Inst) : Prop :=
  (alookup inst.cursor m.stateFactories).isSome = true ∧
  (inst.cluster inst.cursor).isSome = true ∧
  (∀ s, s ≠ inst.cursor → (inst.cluster s).isSome = true → persistOf m s = true)

/-- A dispatch that ran to completion: either the output was invoked, or the
input was unhandled and the generated method raised its `RuntimeError` after
committing the transition; a `DispatchFailure.internal` is an exception
escaping from state construction, which aborts the dispatch mid-transition. -/
def dispatchCompleted : Except DispatchFailure Invocation → Bool
  | .ok _ => true
  | .error (.unhandled _ _) => true
  | .error (.internal _) => false

/-- Instance states reachable between dispatches: the state right after
construction, and the state after any dispatch that ran to completion. -/
inductive Reachable (m : Machine) : Inst → Prop where
  | init (coreAttrs : String → Value) (obj : Obj)
      (h : (mkInstance m coreAttrs).2 = .ok obj) :
      Reachable m (mkInstance m coreAttrs).1
  | step (inst : Inst) (i : String) (a : List Value) (k : List (String × Value))
      (hr : Reachable m inst)
      (hc : dispatchCompleted (dispatch m inst i a k).2 = true) :
      Reachable m (dispatch m inst i a k).1

/-- Hand-made instance sitting in non-persistent `Active` with `Idle` not
yet built, used to exercise the eviction-after-construction ordering. -/
def exIc5 : Inst :=
  { coreAttrs := exAttrs, cursor := "Active"
  , cluster := fun s => if s = "Active" then some ⟨"Active", 0, []⟩ else none
  , nextBirth := 1 }

lemma updateState_ok_char {m : Machine} {inst : Inst} {oldOpt : Option String}
    {a : List Value} {k : List (String × Value)} {im : Option (List Param)}
    {inst2 : Inst} {obj : Obj}
    (h : _updateState m inst oldOpt a k im = (inst2, .ok obj)) :
    inst2.cursor = inst.cursor ∧
    inst2.coreAttrs = inst.coreAttrs ∧
    inst2.cluster inst.cursor = some obj ∧
    (∀ s, s ≠ inst.cursor → oldOpt ≠ some s → inst2.cluster s = inst.cluster s) ∧
    (∀ old ofac, oldOpt = some old → old ≠ inst.cursor →
        alookup old m.stateFactories = some ofac →
        ((ofac.persistState = false → inst2.cluster old = none) ∧
         (ofac.persistState = true → inst2.cluster old = inst.cluster old))) ∧
    (∀ fac2, alookup inst.cursor m.stateFactories = some fac2 →
        inst.cluster inst.cursor = none →
        _buildNewState inst.cursor im fac2.params a k inst.coreAttrs m.stateCoreTy
          inst.cluster m.inputProtocols inst.nextBirth = .ok obj) ∧
    (∀ sobj, inst.cluster inst.cursor = some sobj → obj = sobj) := by
  unfold _updateState at h
  split at h
  · simp at h
  next fac hfac =>
    split at h
    next heq => simp at h
    next inst1 obj1 heq =>
      have hphase1 : inst1.cursor = inst.cursor ∧ inst1.coreAttrs = inst.coreAttrs ∧
          inst1.cluster inst.cursor = some obj1 ∧
          (∀ s, s ≠ inst.cursor → inst1.cluster s = inst.cluster s) ∧
          (∀ fac2, alookup inst.cursor m.stateFactories = some fac2 →
            inst.cluster inst.cursor = none →
            _buildNewState inst.cursor im fac2.params a k inst.coreAttrs m.stateCoreTy
              inst.cluster m.inputProtocols inst.nextBirth = .ok obj1) ∧
          (∀ sobj, inst.cluster inst.cursor = some sobj → obj1 = sobj) := by
        split at heq
        next sobj hclu =>
          rw [Prod.mk.injEq] at heq
          obtain ⟨h1, h2⟩ := heq
          injection h2 with h2
          subst h1; subst h2
          refine ⟨rfl, rfl, hclu, fun s _ => rfl, ?_, ?_⟩
          · intro fac2 _ hnone; exact Option.noConfusion (hclu.symm.trans hnone)
          · intro sobj2 hs; exact Option.some.inj (hclu.symm.trans hs)
        next hclu =>
          split at heq
          next e hb => simp at heq
          next newObj hb =>
            rw [Prod.mk.injEq] at heq
            obtain ⟨h1, h2⟩ := heq
            injection h2 with h2
            subst h2; subst h1
            refine ⟨rfl, rfl, by simp, ?_, ?_, ?_⟩
            · intro s hs; simp [hs]
            · intro fac2 hfac2 _
              rw [hfac] at hfac2
              rw [← Option.some.inj hfac2]
              exact hb
            · intro sobj hs; exact Option.noConfusion (hclu.symm.trans hs)
      obtain ⟨hc1, ha1, hm1, ho1, hb1, hr1⟩ := hphase1
      split at h
      · rw [Prod.mk.injEq] at h
        obtain ⟨h1, h2⟩ := h
        injection h2 with h2
        subst h1; subst h2
        exact ⟨hc1, ha1, hm1, fun s hs _ => ho1 s hs,
          fun old ofac hnone => Option.noConfusion hnone, hb1, hr1⟩
      next old =>
        split at h
        next hofac => simp at h
        next ofac hofac =>
          split at h
          next holdeq =>
            rw [Prod.mk.injEq] at h
            obtain ⟨h1, h2⟩ := h; injection h2 with h2; subst h1; subst h2
            refine ⟨hc1, ha1, hm1, fun s hs _ => ho1 s hs, ?_, hb1, hr1⟩
            intro old2 ofac2 hsome hne _
            rw [Option.some.inj hsome] at holdeq
            exact absurd holdeq hne
          next holdne =>
            split at h
            next hpers =>
              rw [Prod.mk.injEq] at h
              obtain ⟨h1, h2⟩ := h; injection h2 with h2; subst h1; subst h2
              refine ⟨hc1, ha1, hm1, fun s hs _ => ho1 s hs, ?_, hb1, hr1⟩
              intro old2 ofac2 hsome hne hlo
              have hoo : old = old2 := Option.some.inj hsome
              subst hoo
              rw [hofac] at hlo
              rw [← Option.some.inj hlo]
              constructor
              · intro hfalse; rw [hpers] at hfalse; exact Bool.noConfusion hfalse
              · intro _; exact ho1 old hne
            next hpersf =>
              split at h
              next hcl1 => simp at h
              next val hcl1 =>
                rw [Prod.mk.injEq] at h
                obtain ⟨h1, h2⟩ := h; injection h2 with h2; subst h2; subst h1
                have holdne2 : inst.cursor ≠ old := fun hco => holdne hco.symm
                refine ⟨hc1, ha1, ?_, ?_, ?_, hb1, hr1⟩
                · show (if inst.cursor = old then none else inst1.cluster inst.cursor) = some obj1
                  rw [if_neg holdne2]; exact hm1
                · intro s hs hso
                  have hsold : s ≠ old := fun hseq => hso (by rw [hseq])
                  show (if s = old then none else inst1.cluster s) = inst.cluster s
                  rw [if_neg hsold]; exact ho1 s hs
                · intro old2 ofac2 hsome hne hlo
                  have hoo : old = old2 := Option.some.inj hsome
                  subst hoo
                  rw [hofac] at hlo
                  rw [← Option.some.inj hlo]
                  constructor
                  · intro _
                    show (if old = old then none else inst1.cluster old) = none
                    rw [if_pos rfl]
                  · intro htrue; rw [htrue] at hpersf; exact absurd rfl hpersf

lemma dispatch_nosig {m : Machine} {inst : Inst} {i : String} {a : List Value}
    {k : List (String × Value)} (h : alookup i m.inputSigs = none) :
    dispatch m inst i a k = (inst, .error (.internal (.keyError i))) := by
  unfold dispatch; rw [h]

lemma dispatch_noobj {m : Machine} {inst : Inst} {i : String} {a : List Value}
    {k : List (String × Value)} {sig : List Param}
    (hsig : alookup i m.inputSigs = some sig)
    (hobj : inst.cluster inst.cursor = none) :
    dispatch m inst i a k = (inst, .error (.internal (.keyError inst.cursor))) := by
  unfold dispatch; rw [hsig, hobj]

lemma dispatch_handled_ok {m : Machine} {inst : Inst} {i : String} {a : List Value}
    {k : List (String × Value)} {sig : List Param} {sobj : Obj} {next out : String}
    {inst2 : Inst} {obj : Obj}
    (hsig : alookup i m.inputSigs = some sig)
    (hobj : inst.cluster inst.cursor = some sobj)
    (htr : alookup (inst.cursor, i) m.transitions = some (next, out))
    (hupd : _updateState m { inst with cursor := next } (some inst.cursor) a k (some sig)
      = (inst2, .ok obj)) :
    dispatch m inst i a k
      = (inst2, .ok { receiver := sobj, methodName := out, args := a, kwargs := k }) := by
  unfold dispatch
  rw [hsig, hobj]
  simp only [htr, Option.map]
  rw [hupd]

lemma dispatch_handled_err {m : Machine} {inst : Inst} {i : String} {a : List Value}
    {k : List (String × Value)} {sig : List Param} {sobj : Obj} {next out : String}
    {inst2 : Inst} {e : DispatchError}
    (hsig : alookup i m.inputSigs = some sig)
    (hobj : inst.cluster inst.cursor = some sobj)
    (htr : alookup (inst.cursor, i) m.transitions = some (next, out))
    (hupd : _updateState m { inst with cursor := next } (some inst.cursor) a k (some sig)
      = (inst2, .error e)) :
    dispatch m inst i a k = (inst2, .error (.internal e)) := by
  unfold dispatch
  rw [hsig, hobj]
  simp only [htr, Option.map]
  rw [hupd]

lemma dispatch_unhandled_ok {m : Machine} {inst : Inst} {i : String} {a : List Value}
    {k : List (String × Value)} {sig : List Param} {sobj : Obj}
    {inst2 : Inst} {obj : Obj}
    (hsig : alookup i m.inputSigs = some sig)
    (hobj : inst.cluster inst.cursor = some sobj)
    (htr : alookup (inst.cursor, i) m.transitions = none)
    (hupd : _updateState m { inst with cursor := m.errorState } (some inst.cursor) a k (some sig)
      = (inst2, .ok obj)) :
    dispatch m inst i a k = (inst2, .error (.unhandled inst.cursor i)) := by
  unfold dispatch
  rw [hsig, hobj]
  simp only [htr, Option.map]
  rw [hupd]

lemma dispatch_unhandled_err {m : Machine} {inst : Inst} {i : String} {a : List Value}
    {k : List (String × Value)} {sig : List Param} {sobj : Obj}
    {inst2 : Inst} {e : DispatchError}
    (hsig : alookup i m.inputSigs = some sig)
    (hobj : inst.cluster inst.cursor = some sobj)
    (htr : alookup (inst.cursor, i) m.transitions = none)
    (hupd : _updateState m { inst with cursor := m.errorState } (some inst.cursor) a k (some sig)
      = (inst2, .error e)) :
    dispatch m inst i a k = (inst2, .error (.internal e)) := by
  unfold dispatch
  rw [hsig, hobj]
  simp only [htr, Option.map]
  rw [hupd]

lemma updateState_err_char {m : Machine} {inst : Inst} {oldOpt : Option String}
    {a : List Value} {k : List (String × Value)} {im : Option (List Param)}
    {inst2 : Inst} {e : DispatchError}
    (h : _updateState m inst oldOpt a k im = (inst2, .error e)) :
    inst2.cursor = inst.cursor ∧ inst2.coreAttrs = inst.coreAttrs ∧
    (∀ s o, inst.cluster s = some o → inst2.cluster s = some o) := by
  unfold _updateState at h
  split at h
  · rw [Prod.mk.injEq] at h
    obtain ⟨h1, _⟩ := h
    subst h1
    exact ⟨rfl, rfl, fun s o ho => ho⟩
  next fac hfac =>
    split at h
    next inst1 e1 heq =>
      have hinst1 : inst1.cursor = inst.cursor ∧ inst1.coreAttrs = inst.coreAttrs ∧
          (∀ s o, inst.cluster s = some o → inst1.cluster s = some o) := by
        split at heq
        next sobj hclu => simp at heq
        next hclu =>
          split at heq
          next e2 hb =>
            rw [Prod.mk.injEq] at heq
            obtain ⟨h1, _⟩ := heq
            subst h1
            exact ⟨rfl, rfl, fun s o ho => ho⟩
          next newObj hb => simp at heq
      rw [Prod.mk.injEq] at h
      obtain ⟨h1, h2⟩ := h
      injection h2 with h2
      subst h1; subst h2
      exact hinst1
    next inst1 obj1 heq =>
      have hinst1 : inst1.cursor = inst.cursor ∧ inst1.coreAttrs = inst.coreAttrs ∧
          (∀ s o, inst.cluster s = some o → inst1.cluster s = some o) := by
        split at heq
        next sobj hclu =>
          rw [Prod.mk.injEq] at heq
          obtain ⟨h1, _⟩ := heq
          subst h1
          exact ⟨rfl, rfl, fun s o ho => ho⟩
        next hclu =>
          split at heq
          next e2 hb => simp at heq
          next newObj hb =>
            rw [Prod.mk.injEq] at heq
            obtain ⟨h1, _⟩ := heq
            subst h1
            refine ⟨rfl, rfl, ?_⟩
            intro s o ho
            have hs : s ≠ inst.cursor := by
              intro hsc; rw [hsc, hclu] at ho; exact Option.noConfusion ho
            show (if s = inst.cursor then some newObj else inst.cluster s) = some o
            rw [if_neg hs]; exact ho
      obtain ⟨hic, hia, hip⟩ := hinst1
      split at h
      · simp at h
      next old =>
        split at h
        next hofac =>
          rw [Prod.mk.injEq] at h
          obtain ⟨h1, _⟩ := h
          subst h1
          exact ⟨hic, hia, hip⟩
        next ofac hofac =>
          split at h
          next holdeq => simp at h
          next holdne =>
            split at h
            next hpers => simp at h
            next hpersf =>
              split at h
              next hcl1 =>
                rw [Prod.mk.injEq] at h
                obtain ⟨h1, _⟩ := h
                subst h1
                exact ⟨hic, hia, hip⟩
              next val hcl1 => simp at h

lemma alookup_mem {κ α : Type} [DecidableEq κ] {k : κ} {v : α} {l : List (κ × α)}
    (h : alookup k l = some v) : (k, v) ∈ l := by
  induction l with
  | nil => rw [alookup] at h; exact Option.noConfusion h
  | cons p rest ih =>
    obtain ⟨k', v'⟩ := p
    rw [alookup] at h
    by_cases hk : k' = k
    · subst hk
      rw [if_pos rfl] at h
      rw [← Option.some.inj h]
      exact List.mem_cons_self _ _
    · rw [if_neg hk] at h
      exact List.mem_cons_of_mem _ (ih h)

lemma updateState_preserves_entry {m : Machine} {inst : Inst} {oldOpt : Option String}
    {a : List Value} {k : List (String × Value)} {im : Option (List Param)}
    {inst2 : Inst} {r : Except DispatchError Obj}
    {s : String} {fac : FactorySpec} {o : Obj}
    (hu : _updateState m inst oldOpt a k im = (inst2, r))
    (hfac : alookup s m.stateFactories = some fac)
    (hp : fac.persistState = true)
    (ho : inst.cluster s = some o) :
    inst2.cluster s = some o := by
  cases r with
  | error e =>
    obtain ⟨_, _, hpres⟩ := updateState_err_char hu
    exact hpres s o ho
  | ok obj =>
    obtain ⟨_, _, hcur, hother, hold, _, hreuse⟩ := updateState_ok_char hu
    by_cases hsc : s = inst.cursor
    · subst hsc
      rw [← hreuse o ho]
      exact hcur
    · rcases hoo : oldOpt with _ | old
      · rw [hother s hsc (by rw [hoo]; exact fun hx => Option.noConfusion hx)]
        exact ho
      · by_cases hso : s = old
        · subst hso
          have := (hold s fac hoo hsc hfac).2 hp
          rw [this]; exact ho
        · rw [hother s hsc (by rw [hoo]; intro hx; exact hso (Option.some.inj hx).symm)]
          exact ho

lemma dispatch_preserves_persistent {m : Machine} {inst : Inst} {i : String}
    {a : List Value} {k : List (String × Value)} {s : String} {fac : FactorySpec} {o : Obj}
    (hfac : alookup s m.stateFactories = some fac)
    (hp : fac.persistState = true)
    (ho : inst.cluster s = some o) :
    ((dispatch m inst i a k).1).cluster s = some o := by
  rcases hsig : alookup i m.inputSigs with _ | sig
  · rw [dispatch_nosig hsig]; exact ho
  · rcases hobj : inst.cluster inst.cursor with _ | sobj
    · rw [dispatch_noobj hsig hobj]; exact ho
    · rcases htr : alookup (inst.cursor, i) m.transitions with _ | ⟨next, out⟩
      · rcases hupd : _updateState m { inst with cursor := m.errorState }
            (some inst.cursor) a k (some sig) with ⟨inst2, r⟩
        cases r with
        | error e =>
          rw [dispatch_unhandled_err hsig hobj htr hupd]
          exact updateState_preserves_entry hupd hfac hp ho
        | ok obj =>
          rw [dispatch_unhandled_ok hsig hobj htr hupd]
          exact updateState_preserves_entry hupd hfac hp ho
      · rcases hupd : _updateState m { inst with cursor := next }
            (some inst.cursor) a k (some sig) with ⟨inst2, r⟩
        cases r with
        | error e =>
          rw [dispatch_handled_err hsig hobj htr hupd]
          exact updateState_preserves_entry hupd hfac hp ho
        | ok obj =>
          rw [dispatch_handled_ok hsig hobj htr hupd]
          exact updateState_preserves_entry hupd hfac hp ho

lemma updateState_ok_hasfac {m : Machine} {inst : Inst} {oldOpt : Option String}
    {a : List Value} {k : List (String × Value)} {im : Option (List Param)}
    {inst2 : Inst} {obj : Obj}
    (h : _updateState m inst oldOpt a k im = (inst2, .ok obj)) :
    (alookup inst.cursor m.stateFactories).isSome = true := by
  unfold _updateState at h
  split at h
  · simp at h
  next fac hfac => rw [hfac]; rfl

lemma updateState_ok_hasofac {m : Machine} {inst : Inst} {old : String}
    {a : List Value} {k : List (String × Value)} {im : Option (List Param)}
    {inst2 : Inst} {obj : Obj}
    (h : _updateState m inst (some old) a k im = (inst2, .ok obj)) :
    (alookup old m.stateFactories).isSome = true := by
  unfold _updateState at h
  split at h
  · simp at h
  next fac hfac =>
    split at h
    next heq => simp at h
    next inst1 obj1 heq =>
      dsimp only at h
      split at h
      next hofac => simp at h
      next ofac hofac => rw [hofac]; rfl

lemma goodInst_after_update {m : Machine} {inst : Inst} {N : String}
    {a : List Value} {k : List (String × Value)} {sig : List Param}
    {inst2 : Inst} {obj : Obj}
    (hgpers : ∀ s, s ≠ inst.cursor → (inst.cluster s).isSome = true → persistOf m s = true)
    (hfacN : (alookup N m.stateFactories).isSome = true)
    (hupd : _updateState m { inst with cursor := N } (some inst.cursor) a k (some sig)
      = (inst2, .ok obj)) :
    goodInst m inst2 := by
  obtain ⟨hc1, _, hm1, ho1, hold1, _, _⟩ := updateState_ok_char hupd
  dsimp only at hc1 hm1 ho1 hold1
  have hofacS := updateState_ok_hasofac hupd
  refine ⟨?_, ?_, ?_⟩
  · rw [hc1]; exact hfacN
  · rw [hc1, hm1]; rfl
  · intro s hs hsome
    rw [hc1] at hs
    by_cases hso : s = inst.cursor
    · subst hso
      rcases hof : alookup inst.cursor m.stateFactories with _ | ofac
      · rw [hof] at hofacS; exact Bool.noConfusion hofacS
      · cases hps : ofac.persistState with
        | false =>
          have hnone := (hold1 inst.cursor ofac rfl hs hof).1 hps
          rw [hnone] at hsome
          exact Bool.noConfusion hsome
        | true =>
          unfold persistOf
          rw [hof]
          exact hps
    · have hkeep := ho1 s hs (fun hx => hso (Option.some.inj hx).symm)
      rw [hkeep] at hsome
      exact hgpers s hso hsome

lemma goodInst_preserved {m : Machine} {inst : Inst} {i : String} {a : List Value}
    {k : List (String × Value)}
    (hwf : WFMachine m) (hg : goodInst m inst)
    (hc : dispatchCompleted (dispatch m inst i a k).2 = true) :
    goodInst m (dispatch m inst i a k).1 := by
  obtain ⟨hgfac, hgclu, hgpers⟩ := hg
  rcases hsig : alookup i m.inputSigs with _ | sig
  · rw [dispatch_nosig hsig]; exact ⟨hgfac, hgclu, hgpers⟩
  rcases hobj : inst.cluster inst.cursor with _ | sobj
  · rw [hobj] at hgclu; exact Bool.noConfusion hgclu
  rcases htr : alookup (inst.cursor, i) m.transitions with _ | ⟨next, out⟩
  · rcases hupd : _updateState m { inst with cursor := m.errorState }
        (some inst.cursor) a k (some sig) with ⟨inst2, r⟩
    cases r with
    | error e =>
      rw [dispatch_unhandled_err hsig hobj htr hupd] at hc
      simp [dispatchCompleted] at hc
    | ok obj =>
      rw [dispatch_unhandled_ok hsig hobj htr hupd]
      exact goodInst_after_update hgpers hwf.2 hupd
  · have hfacN := hwf.1 _ (alookup_mem htr)
    rcases hupd : _updateState m { inst with cursor := next }
        (some inst.cursor) a k (some sig) with ⟨inst2, r⟩
    cases r with
    | error e =>
      rw [dispatch_handled_err hsig hobj htr hupd] at hc
      simp [dispatchCompleted] at hc
    | ok obj =>
      rw [dispatch_handled_ok hsig hobj htr hupd]
      exact goodInst_after_update hgpers hfacN hupd

lemma mkInstance_good {m : Machine} {attrs : String → Value} {obj : Obj}
    (h : (mkInstance m attrs).2 = .ok obj) :
    goodInst m (mkInstance m attrs).1 := by
  rcases hu : mkInstance m attrs with ⟨inst1, r⟩
  rw [hu] at h
  dsimp only at h ⊢
  subst h
  unfold mkInstance at hu
  obtain ⟨hc1, _, hm1, ho1, _, _, _⟩ := updateState_ok_char hu
  have hfac := updateState_ok_hasfac hu
  dsimp only at hc1 hm1 ho1 hfac
  refine ⟨?_, ?_, ?_⟩
  · rw [hc1]; exact hfac
  · rw [hc1, hm1]; rfl
  · intro s hs hsome
    rw [hc1] at hs
    have hkeep := ho1 s hs (fun hx => Option.noConfusion hx)
    rw [hkeep] at hsome
    exact Bool.noConfusion hsome

lemma reachable_good {m : Machine} (hwf : WFMachine m) {inst : Inst}
    (hr : Reachable m inst) : goodInst m inst := by
  induction hr with
  | init attrs obj h => exact mkInstance_good h
  | step inst i a k hr hc ih => exact goodInst_preserved hwf ih hc

lemma alookup_append {κ α : Type} [DecidableEq κ] (k : κ) (l1 l2 : List (κ × α)) :
    alookup k (l1 ++ l2) = match alookup k l1 with
      | some v => some v
      | none => alookup k l2 := by
  induction l1 with
  | nil => rfl
  | cons p rest ih =>
    obtain ⟨k', v'⟩ := p
    by_cases hk : k' = k
    · simp [alookup, hk]
    · simp [alookup, hk, ih]

lemma addTransition_ok_keeps {table table2 : List ((String × String) × (String × String))}
    {s i ts os : String} {key : String × String}
    (h : addTransition table s i ts os = .ok table2)
    (hkey : (alookup key table).isSome = true) : (alookup key table2).isSome = true := by
  unfold addTransition at h
  split at h
  · exact Except.noConfusion h
  · injection h with h
    subst h
    rw [alookup_append]
    rcases halo : alookup key table with _ | v
    · rw [halo] at hkey; exact Bool.noConfusion hkey
    · simp

lemma addTransition_ok_adds {table table2 : List ((String × String) × (String × String))}
    {s i ts os : String}
    (h : addTransition table s i ts os = .ok table2) :
    (alookup (s, i) table2).isSome = true := by
  unfold addTransition at h
  split at h
  · exact Except.noConfusion h
  · injection h with h
    subst h
    rw [alookup_append]
    rcases halo : alookup (s, i) table with _ | v
    · simp [alookup]
    · simp

lemma registerAll_append (table : List ((String × String) × (String × String)))
    (L1 L2 : List (String × String × String × String)) :
    registerAll table (L1 ++ L2) = match registerAll table L1 with
      | .error msg => .error msg
      | .ok t2 => registerAll t2 L2 := by
  induction L1 generalizing table with
  | nil => rfl
  | cons e rest ih =>
    obtain ⟨s, i, t, o⟩ := e
    rw [List.cons_append]
    simp only [registerAll]
    cases haddtr : addTransition table s i t o with
    | error msg => rfl
    | ok t2 => exact ih t2

lemma registerAll_keeps {key : String × String}
    {L : List (String × String × String × String)} :
    ∀ {table table2 : List ((String × String) × (String × String))},
    registerAll table L = .ok table2 →
    (alookup key table).isSome = true → (alookup key table2).isSome = true := by
  induction L with
  | nil =>
    intro table table2 h hk
    simp only [registerAll] at h
    injection h with h
    rw [← h]
    exact hk
  | cons e rest ih =>
    intro table table2 h hk
    obtain ⟨s, i, t, o⟩ := e
    simp only [registerAll] at h
    cases haddtr : addTransition table s i t o with
    | error msg => rw [haddtr] at h; exact Except.noConfusion h
    | ok t2 =>
      rw [haddtr] at h
      exact ih h (addTransition_ok_keeps haddtr hk)

lemma registerAll_dup (s i t1 o1 t2 o2 : String)
    (X Y Z : List (String × String × String × String))
    (table : List ((String × String) × (String × String))) :
    ∃ msg, registerAll table (X ++ (s, i, t1, o1) :: (Y ++ (s, i, t2, o2) :: Z))
      = .error msg := by
  rw [registerAll_append]
  cases hx : registerAll table X with
  | error msg => exact ⟨msg, rfl⟩
  | ok tx =>
    simp only [registerAll]
    cases ha1 : addTransition tx s i t1 o1 with
    | error msg => exact ⟨msg, rfl⟩
    | ok tx1 =>
      dsimp only
      rw [registerAll_append]
      cases hy : registerAll tx1 Y with
      | error msg => exact ⟨msg, rfl⟩
      | ok ty =>
        simp only [registerAll]
        have hkey : (alookup (s, i) ty).isSome = true :=
          registerAll_keeps hy (addTransition_ok_adds ha1)
        unfold addTransition
        rw [if_pos hkey]
        exact ⟨_, rfl⟩

lemma eventsForProtocol_append (possibleInputs : List String)
    (A B : List StateClassDecl) :
    eventsForProtocol possibleInputs (A ++ B)
      = eventsForProtocol possibleInputs A ++ eventsForProtocol possibleInputs B := by
  induction A with
  | nil => rfl
  | cons sc rest ih =>
    rw [List.cons_append]
    simp only [eventsForProtocol]
    rw [ih, List.append_assoc]

lemma eventsForState_dup {possibleInputs : List String} {sc : StateClassDecl}
    {pre mid suf : List (String × String × String)} {o1 i t1 o2 t2 : String}
    (hh : sc.handlers = pre ++ (o1, i, t1) :: (mid ++ (o2, i, t2) :: suf))
    (hi : i ∈ possibleInputs) :
    eventsForState possibleInputs sc
      = pre.filterMap (fun h =>
            if h.2.1 ∈ possibleInputs then some (sc.name, h.2.1, h.2.2, h.1) else none)
        ++ (sc.name, i, t1, o1)
        :: (mid.filterMap (fun h =>
              if h.2.1 ∈ possibleInputs then some (sc.name, h.2.1, h.2.2, h.1) else none)
            ++ (sc.name, i, t2, o2)
            :: suf.filterMap (fun h =>
                if h.2.1 ∈ possibleInputs then some (sc.name, h.2.1, h.2.2, h.1) else none)) := by
  unfold eventsForState
  rw [hh]
  simp [hi, List.filterMap_append, List.filterMap_cons]

/-- C4: when two output methods of a state declaration bind the same
`(state, input)` pair with a recognized input, building the machine class
fails with a configuration error raised by the duplicate `addTransition`
registration, and no machine value is produced — neither handler is
silently registered. -/
theorem c4_duplicate_binding_rejected
    (publicInputs : List String) (privateInputs : List (List String))
    (stateClasses : List StateClassDecl) (errorStateClass : StateClassDecl)
    (coreTy : Ty) (protos : List Ty) (sigs : List (String × List Param))
    (sc : StateClassDecl)
    (pre mid suf : List (String × String × String)) (o1 t1 o2 t2 i : String)
    (hmem : sc ∈ stateClasses)
    (hh : sc.handlers = pre ++ (o1, i, t1) :: (mid ++ (o2, i, t2) :: suf))
    (hi : i ∈ publicInputs) :
    ∃ msg, buildClass publicInputs privateInputs stateClasses errorStateClass
      coreTy protos sigs = .error msg := by
  obtain ⟨l1, l2, hsc⟩ := List.append_of_mem hmem
  subst hsc
  have hE : registrationEvents (publicInputs :: privateInputs)
        ((l1 ++ sc :: l2) ++ [errorStateClass])
      = (eventsForProtocol publicInputs l1
          ++ pre.filterMap (fun h =>
              if h.2.1 ∈ publicInputs then some (sc.name, h.2.1, h.2.2, h.1) else none))
        ++ (sc.name, i, t1, o1)
        :: ((mid.filterMap (fun h =>
              if h.2.1 ∈ publicInputs then some (sc.name, h.2.1, h.2.2, h.1) else none))
            ++ (sc.name, i, t2, o2)
            :: (suf.filterMap (fun h =>
                  if h.2.1 ∈ publicInputs then some (sc.name, h.2.1, h.2.2, h.1) else none)
                ++ (eventsForProtocol publicInputs (l2 ++ [errorStateClass])
                    ++ registrationEvents privateInputs ((l1 ++ sc :: l2) ++ [errorStateClass])))) := by
    have hall : (l1 ++ sc :: l2) ++ [errorStateClass]
        = l1 ++ (sc :: (l2 ++ [errorStateClass])) := by simp
    rw [hall]
    simp only [registrationEvents]
    rw [eventsForProtocol_append]
    simp only [eventsForProtocol]
    rw [eventsForState_dup hh hi]
    simp [List.append_assoc, List.cons_append]
  obtain ⟨msg, hmsg⟩ := registerAll_dup sc.name i t1 o1 t2 o2
    (eventsForProtocol publicInputs l1
      ++ pre.filterMap (fun h =>
          if h.2.1 ∈ publicInputs then some (sc.name, h.2.1, h.2.2, h.1) else none))
    (mid.filterMap (fun h =>
      if h.2.1 ∈ publicInputs then some (sc.name, h.2.1, h.2.2, h.1) else none))
    (suf.filterMap (fun h =>
        if h.2.1 ∈ publicInputs then some (sc.name, h.2.1, h.2.2, h.1) else none)
      ++ (eventsForProtocol publicInputs (l2 ++ [errorStateClass])
          ++ registrationEvents privateInputs ((l1 ++ sc :: l2) ++ [errorStateClass])))
    []
  refine ⟨msg, ?_⟩
  unfold buildClass
  rw [hE, hmsg]

/-- C1 (amended): when the table lookup reports an output method and the
dispatch completes, the output method is invoked on the data object of the
state that was current when the input arrived (fetched from the cluster
before the cursor advanced), forwarding the original call arguments, and its
result is returned unchanged; the cursor has meanwhile advanced to the
reported next state. -/
theorem c1_output_on_departed_state_object (m : Machine) (inst inst2 : Inst)
    (i : String) (a : List Value) (k : List (String × Value)) (sig : List Param)
    (sobj : Obj) (next out : String) (inv : Invocation)
    (hsig : alookup i m.inputSigs = some sig)
    (hobj : inst.cluster inst.cursor = some sobj)
    (htr : alookup (inst.cursor, i) m.transitions = some (next, out))
    (hd : dispatch m inst i a k = (inst2, .ok inv)) :
    inv = { receiver := sobj, methodName := out, args := a, kwargs := k } ∧
    inst2.cursor = next := by
  rcases hupd : _updateState m { inst with cursor := next } (some inst.cursor) a k (some sig)
    with ⟨instU, r⟩
  cases r with
  | error e =>
    rw [dispatch_handled_err hsig hobj htr hupd] at hd
    rw [Prod.mk.injEq] at hd
    exact Except.noConfusion hd.2
  | ok obj =>
    rw [dispatch_handled_ok hsig hobj htr hupd] at hd
    rw [Prod.mk.injEq] at hd
    obtain ⟨h1, h2⟩ := hd
    obtain ⟨hc1, _, _, _, _, _, _⟩ := updateState_ok_char hupd
    subst h1
    exact ⟨(Except.ok.inj h2).symm, hc1⟩

/-- C1 counterexample: on the example machine, dispatching `start` from
`Idle` advances the cursor to `Active`, whose data object is the freshly
built `⟨Active, 1⟩`, yet the reported output `doStart` is invoked on the
departed state's object `⟨Idle, 0⟩`, not on the new current state's data
object as the claim states. -/
theorem c1_counterexample :
    (dispatch exm exI0 "start" [] []).2
      = .ok { receiver := ⟨"Idle", 0, []⟩, methodName := "doStart", args := [], kwargs := [] } ∧
    (dispatch exm exI0 "start" [] []).1.cursor = "Active" ∧
    (dispatch exm exI0 "start" [] []).1.cluster "Active" = some ⟨"Active", 1, []⟩ ∧
    (⟨"Idle", 0, []⟩ : Obj) ≠ (⟨"Active", 1, []⟩ : Obj) := by decide

theorem c1_witness :
    ({ receiver := ⟨"Idle", 0, []⟩, methodName := "doStart", args := [], kwargs := [] }
        : Invocation)
      = { receiver := ⟨"Idle", 0, []⟩, methodName := "doStart", args := [], kwargs := [] } ∧
    (dispatch exm exI0 "start" [] []).1.cursor = "Active" :=
  c1_output_on_departed_state_object exm exI0 (dispatch exm exI0 "start" [] []).1
    "start" [] [] [⟨"self", tyProto, false⟩] ⟨"Idle", 0, []⟩ "Active" "doStart"
    ⟨⟨"Idle", 0, []⟩, "doStart", [], []⟩ (by decide) (by decide) (by decide) (by rfl)

/-- C2 (amended): an input with no handler in the current state fails with
the `RuntimeError` naming that state and the input, and the state core is
untouched; but the failure is raised only after the transition has been
committed: the cursor has moved to the designated error state, the error
state's data object has been built and inserted into the cluster, and the
departed state's entry has been evicted when it was non-persistent. -/
theorem c2_unhandled_commits_error_transition (m : Machine) (inst inst2 : Inst)
    (i : String) (a : List Value) (k : List (String × Value)) (sig : List Param)
    (sobj obj : Obj)
    (hsig : alookup i m.inputSigs = some sig)
    (hobj : inst.cluster inst.cursor = some sobj)
    (htr : alookup (inst.cursor, i) m.transitions = none)
    (hupd : _updateState m { inst with cursor := m.errorState } (some inst.cursor) a k (some sig)
      = (inst2, .ok obj)) :
    dispatch m inst i a k = (inst2, .error (.unhandled inst.cursor i)) ∧
    failureMessage (.unhandled inst.cursor i)
      = "unhandled: state:" ++ inst.cursor ++ " input:" ++ i ∧
    inst2.coreAttrs = inst.coreAttrs ∧
    inst2.cursor = m.errorState ∧
    inst2.cluster m.errorState = some obj ∧
    (∀ ofac, inst.cursor ≠ m.errorState →
        alookup inst.cursor m.stateFactories = some ofac → ofac.persistState = false →
        inst2.cluster inst.cursor = none) := by
  obtain ⟨hc1, ha1, hm1, _, hold1, _, _⟩ := updateState_ok_char hupd
  dsimp only at hc1 ha1 hm1 hold1
  refine ⟨dispatch_unhandled_ok hsig hobj htr hupd, rfl, ha1, hc1, ?_, ?_⟩
  · rw [← hc1] at hm1
    rw [hc1] at hm1
    exact hm1
  · intro ofac hne hofac hnp
    exact (hold1 inst.cursor ofac rfl hne hofac).1 hnp

/-- C2 counterexample: on the example machine in state `Active`
(non-persistent), the undeclared-in-`Active` input `start` fails with the
error naming `Active` and `start`, yet the dispatch has mutated the
instance: the cursor moved to `ErrorState`, an `ErrorState` data object was
built into the cluster, and `Active`'s entry was evicted — refuting the
claim that the failure commits no cursor or cluster mutation. -/
theorem c2_counterexample :
    (dispatch exm exI1 "start" [] []).2 = .error (.unhandled "Active" "start") ∧
    exI1.cursor = "Active" ∧
    exI1.cluster "ErrorState" = none ∧
    exI1.cluster "Active" = some ⟨"Active", 1, []⟩ ∧
    (dispatch exm exI1 "start" [] []).1.cursor = "ErrorState" ∧
    (dispatch exm exI1 "start" [] []).1.cluster "ErrorState" = some ⟨"ErrorState", 2, []⟩ ∧
    (dispatch exm exI1 "start" [] []).1.cluster "Active" = none := by decide

theorem c2_witness :
    dispatch exm exI1 "start" [] []
      = ((dispatch exm exI1 "start" [] []).1, .error (.unhandled exI1.cursor "start")) ∧
    failureMessage (.unhandled exI1.cursor "start")
      = "unhandled: state:" ++ exI1.cursor ++ " input:" ++ "start" ∧
    (dispatch exm exI1 "start" [] []).1.coreAttrs = exI1.coreAttrs ∧
    (dispatch exm exI1 "start" [] []).1.cursor = exm.errorState ∧
    (dispatch exm exI1 "start" [] []).1.cluster exm.errorState = some ⟨"ErrorState", 2, []⟩ ∧
    (∀ ofac, exI1.cursor ≠ exm.errorState →
        alookup exI1.cursor exm.stateFactories = some ofac → ofac.persistState = false →
        (dispatch exm exI1 "start" [] []).1.cluster exI1.cursor = none) :=
  c2_unhandled_commits_error_transition exm exI1 (dispatch exm exI1 "start" [] []).1
    "start" [] [] [⟨"self", tyProto, false⟩] ⟨"Active", 1, []⟩ ⟨"ErrorState", 2, []⟩
    (by decide) (by decide) (by decide) (by rfl)

/-- C5: leaving a non-persistent state S for a different state T whose
object is not yet built evicts S's cluster entry exactly once per exit, and
only after T's object has been constructed: the constructor runs against the
pre-eviction cluster (which still holds S's object), and afterwards S's
entry is gone while T's fresh object is in the cluster. -/
theorem c5_eviction_after_construction (m : Machine) (inst inst2 : Inst)
    (i : String) (a : List Value) (k : List (String × Value)) (sig : List Param)
    (next out : String) (fac ofac : FactorySpec) (inv : Invocation)
    (hsig : alookup i m.inputSigs = some sig)
    (htr : alookup (inst.cursor, i) m.transitions = some (next, out))
    (hne : next ≠ inst.cursor)
    (hfacn : alookup next m.stateFactories = some fac)
    (hmiss : inst.cluster next = none)
    (hofac : alookup inst.cursor m.stateFactories = some ofac)
    (hnp : ofac.persistState = false)
    (hd : dispatch m inst i a k = (inst2, .ok inv)) :
    (inst.cluster inst.cursor).isSome = true ∧
    inst2.cluster inst.cursor = none ∧
    (∃ newObj, inst2.cluster next = some newObj ∧
      _buildNewState next (some sig) fac.params a k inst.coreAttrs m.stateCoreTy
        inst.cluster m.inputProtocols inst.nextBirth = .ok newObj) := by
  rcases hobj : inst.cluster inst.cursor with _ | sobj
  · rw [dispatch_noobj hsig hobj] at hd
    rw [Prod.mk.injEq] at hd
    exact Except.noConfusion hd.2
  rcases hupd : _updateState m { inst with cursor := next } (some inst.cursor) a k (some sig)
    with ⟨instU, r⟩
  cases r with
  | error e =>
    rw [dispatch_handled_err hsig hobj htr hupd] at hd
    rw [Prod.mk.injEq] at hd
    exact Except.noConfusion hd.2
  | ok obj =>
    rw [dispatch_handled_ok hsig hobj htr hupd] at hd
    rw [Prod.mk.injEq] at hd
    obtain ⟨h1, _⟩ := hd
    subst h1
    obtain ⟨hc1, _, hm1, _, hold1, hb1, _⟩ := updateState_ok_char hupd
    dsimp only at hc1 hm1 hold1 hb1
    have hcurne : inst.cursor ≠ next := fun hx => hne hx.symm
    refine ⟨rfl, ?_, obj, hm1, ?_⟩
    · exact (hold1 inst.cursor ofac rfl hcurne hofac).1 hnp
    · exact hb1 fac hfacn hmiss

theorem c5_witness :
    (exIc5.cluster exIc5.cursor).isSome = true ∧
    (dispatch exm exIc5 "stop" [] []).1.cluster exIc5.cursor = none ∧
    (∃ newObj, (dispatch exm exIc5 "stop" [] []).1.cluster "Idle" = some newObj ∧
      _buildNewState "Idle" (some [⟨"self", tyProto, false⟩]) [] [] [] exIc5.coreAttrs
        exm.stateCoreTy exIc5.cluster exm.inputProtocols exIc5.nextBirth = .ok newObj) :=
  c5_eviction_after_construction exm exIc5 (dispatch exm exIc5 "stop" [] []).1 "stop" [] []
    [⟨"self", tyProto, false⟩] "Idle" "doStop" ⟨[], true⟩ ⟨[], false⟩
    ⟨⟨"Active", 0, []⟩, "doStop", [], []⟩
    (by decide) (by decide) (by decide) (by decide) (by decide) (by decide) (by decide)
    (by rfl)

/-- C6: on a well-formed machine, every instance state reachable between
dispatches — right after construction, and after any dispatch that ran to
completion — has a cluster entry for the current state, and every cluster
entry for a state other than the current one belongs to a persistent
state. -/
theorem c6_cluster_invariant (m : Machine) (inst : Inst)
    (hwf : WFMachine m) (hr : Reachable m inst) :
    (inst.cluster inst.cursor).isSome = true ∧
    (∀ s, s ≠ inst.cursor → (inst.cluster s).isSome = true → persistOf m s = true) :=
  ⟨(reachable_good hwf hr).2.1, (reachable_good hwf hr).2.2⟩

theorem c6_witness :
    (exI1.cluster exI1.cursor).isSome = true ∧
    (∀ s, s ≠ exI1.cursor → (exI1.cluster s).isSome = true → persistOf exm s = true) :=
  c6_cluster_invariant exm exI1 (by unfold WFMachine; decide)
    (Reachable.step exI0 "start" [] []
      (Reachable.init exAttrs ⟨"Idle", 0, []⟩ (by decide)) (by decide))

/-- C7: a persistent state's entry survives every dispatch unchanged, so
once built it is the very same object on every later re-entry and its
factory is never re-invoked; concretely, in the Idle/Active scenario the
`Idle` object built at construction is identical across
`start(); stop(); start()`, while the non-persistent `Active` object built
by the second `start()` (allocation 2) differs from the one built by the
first `start()` (allocation 1), which was evicted by `stop()`. -/
theorem c7_persistence_law :
    (∀ (m : Machine) (inst : Inst) (i : String) (a : List Value)
        (k : List (String × Value)) (s : String) (fac : FactorySpec) (o : Obj),
      alookup s m.stateFactories = some fac → fac.persistState = true →
      inst.cluster s = some o → ((dispatch m inst i a k).1).cluster s = some o) ∧
    exI0.cluster "Idle" = some ⟨"Idle", 0, []⟩ ∧
    exI1.cluster "Idle" = some ⟨"Idle", 0, []⟩ ∧
    exI2.cluster "Idle" = some ⟨"Idle", 0, []⟩ ∧
    exI3.cluster "Idle" = some ⟨"Idle", 0, []⟩ ∧
    exI1.cluster "Active" = some ⟨"Active", 1, []⟩ ∧
    exI2.cluster "Active" = none ∧
    exI3.cluster "Active" = some ⟨"Active", 2, []⟩ ∧
    (⟨"Active", 1, []⟩ : Obj) ≠ (⟨"Active", 2, []⟩ : Obj) :=
  ⟨fun _ _ _ _ _ _ _ _ hf hp ho => dispatch_preserves_persistent hf hp ho,
   by decide, by decide, by decide, by decide, by decide, by decide, by decide, by decide⟩

theorem c7_witness :
    ((dispatch exm exI1 "stop" [] []).1).cluster "Idle" = some ⟨"Idle", 0, []⟩ :=
  c7_persistence_law.1 exm exI1 "stop" [] [] "Idle" ⟨[], true⟩ ⟨"Idle", 0, []⟩
    (by decide) (by decide) (by decide)

/-- C3: the resolver tries the five sources in the fixed order
transition-supplied argument (matching name, identical annotation), then
non-absent state-core attribute, then live sibling state object (matched
through the cluster key), then the state core itself (type identity), then
the facade (declared input protocol), and uses the first that succeeds — in
particular a transition-supplied argument wins regardless of the core's
attributes; parameters with a default are never auto-resolved. -/
theorem c3_resolution_priority :
    (∀ (n : String) (t : Ty) (sigOpt : Option (List Param))
        (passed : List (String × Value)) (attrs : String → Value) (coreTy : Ty)
        (cluster : String → Option Obj) (protos : List Ty) (v : Value),
      rule1Matches n t sigOpt = true → alookup n passed = some v →
      _magicValueForParameter n t sigOpt passed attrs coreTy cluster protos = .ok v) ∧
    (∀ (n : String) (t : Ty) (sigOpt : Option (List Param))
        (passed : List (String × Value)) (attrs : String → Value) (coreTy : Ty)
        (cluster : String → Option Obj) (protos : List Ty) (v : Value),
      rule1Matches n t sigOpt = false → attrs n = v → v ≠ Value.pynone →
      _magicValueForParameter n t sigOpt passed attrs coreTy cluster protos = .ok v) ∧
    (∀ (n : String) (t : Ty) (sigOpt : Option (List Param))
        (passed : List (String × Value)) (attrs : String → Value) (coreTy : Ty)
        (cluster : String → Option Obj) (protos : List Ty) (o : Obj),
      rule1Matches n t sigOpt = false → attrs n = Value.pynone → cluster t.name = some o →
      _magicValueForParameter n t sigOpt passed attrs coreTy cluster protos
        = .ok (.objRef o.stateName o.birth)) ∧
    (∀ (n : String) (t : Ty) (sigOpt : Option (List Param))
        (passed : List (String × Value)) (attrs : String → Value) (coreTy : Ty)
        (cluster : String → Option Obj) (protos : List Ty),
      rule1Matches n t sigOpt = false → attrs n = Value.pynone → cluster t.name = none →
      t = coreTy →
      _magicValueForParameter n t sigOpt passed attrs coreTy cluster protos = .ok .core) ∧
    (∀ (n : String) (t : Ty) (sigOpt : Option (List Param))
        (passed : List (String × Value)) (attrs : String → Value) (coreTy : Ty)
        (cluster : String → Option Obj) (protos : List Ty),
      rule1Matches n t sigOpt = false → attrs n = Value.pynone → cluster t.name = none →
      t ≠ coreTy → t ∈ protos →
      _magicValueForParameter n t sigOpt passed attrs coreTy cluster protos = .ok .self) ∧
    (∀ (p : Param) (rest : List Param) (sigOpt : Option (List Param))
        (passed : List (String × Value)) (attrs : String → Value) (coreTy : Ty)
        (cluster : String → Option Obj) (protos : List Ty),
      p.hasDefault = true →
      resolveParams (p :: rest) sigOpt passed attrs coreTy cluster protos
        = resolveParams rest sigOpt passed attrs coreTy cluster protos) := by
  refine ⟨?_, ?_, ?_, ?_, ?_, ?_⟩
  · intro n t sigOpt passed attrs coreTy cluster protos v h1 h2
    simp [_magicValueForParameter, h1, h2]
  · intro n t sigOpt passed attrs coreTy cluster protos v h1 h2 hne
    unfold _magicValueForParameter
    rw [if_neg (by simp [h1]), h2]
    cases v with
    | pynone => exact absurd rfl hne
    | prim x => rfl
    | objRef s b => rfl
    | core => rfl
    | self => rfl
  · intro n t sigOpt passed attrs coreTy cluster protos o h1 h2 h3
    unfold _magicValueForParameter
    rw [if_neg (by simp [h1]), h2]
    simp [h3]
  · intro n t sigOpt passed attrs coreTy cluster protos h1 h2 h3 h4
    subst h4
    unfold _magicValueForParameter
    rw [if_neg (by simp [h1]), h2]
    simp [h3]
  · intro n t sigOpt passed attrs coreTy cluster protos h1 h2 h3 h4 h5
    unfold _magicValueForParameter
    rw [if_neg (by simp [h1]), h2]
    simp [h3, h4, h5]
  · intro p rest sigOpt passed attrs coreTy cluster protos hp
    simp [resolveParams, hp]

theorem c3_witness :
    _magicValueForParameter "x" ⟨3, "int"⟩
      (some [⟨"self", tyProto, false⟩, ⟨"x", ⟨3, "int"⟩, false⟩])
      [("self", .core), ("x", .prim 42)]
      (fun nm => if nm = "x" then Value.prim 99 else Value.pynone) tyCore
      (fun _ => none) [tyProto]
      = .ok (.prim 42) :=
  c3_resolution_priority.1 "x" ⟨3, "int"⟩
    (some [⟨"self", tyProto, false⟩, ⟨"x", ⟨3, "int"⟩, false⟩])
    [("self", .core), ("x", .prim 42)]
    (fun nm => if nm = "x" then Value.prim 99 else Value.pynone) tyCore
    (fun _ => none) [tyProto] (.prim 42) (by decide) (by decide)

/-- C8: when none of the five resolution rules applies to a defaultless
parameter, resolution raises `CouldNotFindAutoParam` naming that parameter
(with the exact message text), the parameter loop propagates the failure,
and building the target state object fails with the same error instead of
passing any substitute value to the factory. -/
theorem c8_unresolvable_parameter_fails (n : String) (t : Ty) (sig : List Param)
    (passed : List (String × Value)) (attrs : String → Value) (coreTy : Ty)
    (cluster : String → Option Obj) (protos : List Ty)
    (rest : List Param) (sname : String) (a : List Value) (k : List (String × Value))
    (birth : Nat)
    (h1 : rule1Matches n t (some sig) = false)
    (h2 : attrs n = Value.pynone)
    (h3 : cluster t.name = none)
    (h4 : t ≠ coreTy)
    (h5 : t ∉ protos)
    (hb : bindArgs sig (Value.core :: a) k = .ok passed) :
    _magicValueForParameter n t (some sig) passed attrs coreTy cluster protos
      = .error (.couldNotFindAutoParam n) ∧
    dispatchErrorMessage (.couldNotFindAutoParam n)
      = "Could not find parameter " ++ n ++ " anywhere." ∧
    resolveParams (⟨n, t, false⟩ :: rest) (some sig) passed attrs coreTy cluster protos
      = .error (.couldNotFindAutoParam n) ∧
    _buildNewState sname (some sig) (⟨n, t, false⟩ :: rest) a k attrs coreTy cluster protos
      birth = .error (.couldNotFindAutoParam n) := by
  have hmagic : _magicValueForParameter n t (some sig) passed attrs coreTy cluster protos
      = .error (.couldNotFindAutoParam n) := by
    unfold _magicValueForParameter
    rw [if_neg (by simp [h1]), h2]
    simp [h3, h4, h5]
  have hres : resolveParams (⟨n, t, false⟩ :: rest) (some sig) passed attrs coreTy
      cluster protos = .error (.couldNotFindAutoParam n) := by
    simp [resolveParams, hmagic]
  refine ⟨hmagic, rfl, hres, ?_⟩
  simp [_buildNewState, hb, hres]

theorem c8_witness :
    _magicValueForParameter "sibling" ⟨7, "Sibling"⟩ (some [⟨"self", tyProto, false⟩])
      [("self", .core)] exAttrs tyCore (fun _ => none) [tyProto]
      = .error (.couldNotFindAutoParam "sibling") ∧
    dispatchErrorMessage (.couldNotFindAutoParam "sibling")
      = "Could not find parameter " ++ "sibling" ++ " anywhere." ∧
    resolveParams (⟨"sibling", ⟨7, "Sibling"⟩, false⟩ :: []) (some [⟨"self", tyProto, false⟩])
      [("self", .core)] exAttrs tyCore (fun _ => none) [tyProto]
      = .error (.couldNotFindAutoParam "sibling") ∧
    _buildNewState "Target" (some [⟨"self", tyProto, false⟩])
      (⟨"sibling", ⟨7, "Sibling"⟩, false⟩ :: []) [] [] exAttrs tyCore (fun _ => none)
      [tyProto] 0
      = .error (.couldNotFindAutoParam "sibling") :=
  c8_unresolvable_parameter_fails "sibling" ⟨7, "Sibling"⟩ [⟨"self", tyProto, false⟩]
    [("self", .core)] exAttrs tyCore (fun _ => none) [tyProto] [] "Target" [] [] 0
    (by decide) (by rfl) (by rfl) (by decide) (by decide) (by decide)

/-- C9: the state-core rule matches by parameter name alone — any non-`None`
attribute value is used no matter what the parameter's declared type is —
and an attribute holding `None` is treated as absent, so resolution falls
through to the sibling-state, core-type and self-reference rules. -/
theorem c9_core_attribute_name_only (n : String) (sigOpt : Option (List Param))
    (passed : List (String × Value)) (attrs : String → Value) (coreTy : Ty)
    (cluster : String → Option Obj) (protos : List Ty) :
    (∀ (t : Ty) (v : Value), rule1Matches n t sigOpt = false → attrs n = v →
      v ≠ Value.pynone →
      _magicValueForParameter n t sigOpt passed attrs coreTy cluster protos = .ok v) ∧
    (∀ (t : Ty) (o : Obj), rule1Matches n t sigOpt = false → attrs n = Value.pynone →
      cluster t.name = some o →
      _magicValueForParameter n t sigOpt passed attrs coreTy cluster protos
        = .ok (.objRef o.stateName o.birth)) ∧
    (∀ (t : Ty), rule1Matches n t sigOpt = false → attrs n = Value.pynone →
      cluster t.name = none → t = coreTy →
      _magicValueForParameter n t sigOpt passed attrs coreTy cluster protos = .ok .core) ∧
    (∀ (t : Ty), rule1Matches n t sigOpt = false → attrs n = Value.pynone →
      cluster t.name = none → t ≠ coreTy → t ∈ protos →
      _magicValueForParameter n t sigOpt passed attrs coreTy cluster protos = .ok .self) := by
  refine ⟨?_, ?_, ?_, ?_⟩
  · intro t v h1 h2 hne
    unfold _magicValueForParameter
    rw [if_neg (by simp [h1]), h2]
    cases v with
    | pynone => exact absurd rfl hne
    | prim x => rfl
    | objRef s b => rfl
    | core => rfl
    | self => rfl
  · intro t o h1 h2 h3
    unfold _magicValueForParameter
    rw [if_neg (by simp [h1]), h2]
    simp [h3]
  · intro t h1 h2 h3 h4
    subst h4
    unfold _magicValueForParameter
    rw [if_neg (by simp [h1]), h2]
    simp [h3]
  · intro t h1 h2 h3 h4 h5
    unfold _magicValueForParameter
    rw [if_neg (by simp [h1]), h2]
    simp [h3, h4, h5]

theorem c9_witness :
    _magicValueForParameter "x" ⟨99, "Whatever"⟩ none []
      (fun s => if s = "x" then Value.prim 7 else Value.pynone) tyCore (fun _ => none) []
      = .ok (.prim 7) :=
  (c9_core_attribute_name_only "x" none []
      (fun s => if s = "x" then Value.prim 7 else Value.pynone) tyCore
      (fun _ => none) []).1
    ⟨99, "Whatever"⟩ (.prim 7) (by decide) (by decide) (by decide)

/-- C10: the sibling-state rule compares only the `__name__` of the
parameter's declared type against the cluster's string keys: two distinct
types that merely share a name resolve to the same stored object, whatever
object happens to live under that key. -/
theorem c10_sibling_match_by_name (n : String) (t1 t2 : Ty)
    (sigOpt : Option (List Param)) (passed : List (String × Value))
    (attrs : String → Value) (coreTy : Ty) (cluster : String → Option Obj)
    (protos : List Ty) (o : Obj)
    (hne : t1 ≠ t2) (hname : t1.name = t2.name)
    (h1a : rule1Matches n t1 sigOpt = false) (h1b : rule1Matches n t2 sigOpt = false)
    (h2 : attrs n = Value.pynone)
    (hcl : cluster t1.name = some o) :
    _magicValueForParameter n t1 sigOpt passed attrs coreTy cluster protos
      = .ok (.objRef o.stateName o.birth) ∧
    _magicValueForParameter n t2 sigOpt passed attrs coreTy cluster protos
      = .ok (.objRef o.stateName o.birth) := by
  constructor
  · unfold _magicValueForParameter
    rw [if_neg (by simp [h1a]), h2]
    simp [hcl]
  · unfold _magicValueForParameter
    rw [if_neg (by simp [h1b]), h2]
    rw [← hname]
    simp [hcl]

theorem c10_witness :
    _magicValueForParameter "w" ⟨10, "Widget"⟩ none [] exAttrs tyCore
      (fun s => if s = "Widget" then some ⟨"OtherWidget", 3, []⟩ else none) []
      = .ok (.objRef "OtherWidget" 3) ∧
    _magicValueForParameter "w" ⟨11, "Widget"⟩ none [] exAttrs tyCore
      (fun s => if s = "Widget" then some ⟨"OtherWidget", 3, []⟩ else none) []
      = .ok (.objRef "OtherWidget" 3) :=
  c10_sibling_match_by_name "w" ⟨10, "Widget"⟩ ⟨11, "Widget"⟩ none [] exAttrs tyCore
    (fun s => if s = "Widget" then some ⟨"OtherWidget", 3, []⟩ else none) []
    ⟨"OtherWidget", 3, []⟩
    (by decide) (by decide) (by decide) (by decide) (by decide) (by decide)

theorem c4_witness :
    ∃ msg, buildClass ["go"] []
      [⟨"S", true, [], [("m1", "go", "S"), ("m2", "go", "S")]⟩]
      ⟨"ErrorState", false, [], []⟩ tyCore [tyProto] [] = .error msg :=
  c4_duplicate_binding_rejected ["go"] []
    [⟨"S", true, [], [("m1", "go", "S"), ("m2", "go", "S")]⟩]
    ⟨"ErrorState", false, [], []⟩ tyCore [tyProto] []
    ⟨"S", true, [], [("m1", "go", "S"), ("m2", "go", "S")]⟩
    [] [] [] "m1" "S" "m2" "S" "go"
    (by decide) (by decide) (by decide)
